import Mathlib

/-!
Verification of the decoding-pipeline core of libosmium:
`include/osmium/io/detail/input_format.hpp` (the guarded `Parser` worker
and the `ParserFactory` format registry) and `include/osmium/io/header.hpp`
(the `Header` metadata holder).

Embedding conventions: the thread-safe queues are embedded by their
current contents (a `List`, front = next element popped); the
`std::promise` one-shot is embedded as an `Option (Except Err Header)`
(`none` = not yet resolved); a `std::future<Buffer>` on the output queue
is embedded as `Except Err Buffer`; an exception thrown by `run()` is an
`Err` value.  The virtual method `run()` is an arbitrary function from
parser state to an outcome (normal return or thrown exception), each with
the state it left behind.  A blocking pop on a queue that never produces
the awaited element is modelled by `Option`: `none` means the operation
blocks forever.
-/

/-- The payload of a `std::exception_ptr` as observable here: an opaque
error value (the message). -/
abbrev Err := String

/-- Modelled from the spec: `osmium/osm/bounds.hpp` is not among the
sources.  The spec says only that the header carries a "bounding box"
with default-constructed (undefined) state; field semantics are out of
scope.  Two optional corner coordinates, both undefined by default. -/
structure Bounds where
  bottom_left : Option (Int × Int) := none
  top_right : Option (Int × Int) := none
deriving Repr, DecidableEq

/-- `osmium::io::Header` (header.hpp, lines 46-118): bounding box,
multiple-object-versions flag, generator string, PBF dense-nodes flag,
with the in-class initializers of the source. -/
structure Header where
  m_bounds : Bounds := {}
  m_has_multiple_object_versions : Bool := false
  m_generator : String := ""
  m_pbf_has_dense_nodes : Bool := false
deriving Repr, DecidableEq

/-- Getter `Header::bounds() const`. -/
def Header.bounds (h : Header) : Bounds :=
  h.m_bounds

/-- Setter `Header::bounds(const Bounds&)`: assigns `m_bounds` and
returns the (updated) header for chaining. -/
def Header.set_bounds (h : Header) (bounds : Bounds) : Header :=
  { h with m_bounds := bounds }

/-- Getter `Header::has_multiple_object_versions() const`. -/
def Header.has_multiple_object_versions (h : Header) : Bool :=
  h.m_has_multiple_object_versions

/-- Setter `Header::has_multiple_object_versions(bool)`. -/
def Header.set_has_multiple_object_versions (h : Header) (b : Bool) : Header :=
  { h with m_has_multiple_object_versions := b }

/-- Getter `Header::generator() const`. -/
def Header.generator (h : Header) : String :=
  h.m_generator

/-- Setter `Header::generator(const std::string&)`. -/
def Header.set_generator (h : Header) (generator : String) : Header :=
  { h with m_generator := generator }

/-- Getter `Header::pbf_has_dense_nodes() const`. -/
def Header.pbf_has_dense_nodes (h : Header) : Bool :=
  h.m_pbf_has_dense_nodes

/-- Setter `Header::pbf_has_dense_nodes(bool)`. -/
def Header.set_pbf_has_dense_nodes (h : Header) (b : Bool) : Header :=
  { h with m_pbf_has_dense_nodes := b }

/-- Modelled from the spec: `osmium/memory/buffer.hpp` is not among the
sources.  The spec describes a batch as "an ordered collection of decoded
entities ... tagged with its originating byte size", and a "specially
empty batch" — the default-constructed `Buffer{}`, which owns no
memory — as the end-of-stream marker. -/
inductive Buffer where
  | invalid : Buffer
  | valid (entities : List String) (byte_size : Nat) : Buffer
deriving Repr, DecidableEq

/-- A `std::future<osmium::memory::Buffer>` as stored in the output
queue: resolved with either a buffer or an exception. -/
abbrev BufferFuture := Except Err Buffer

/-- The terminal end-of-stream marker: a future holding the
default-constructed (invalid) buffer. -/
def BufferFuture.is_terminal : BufferFuture → Bool
  | Except.ok Buffer.invalid => true
  | _ => false

/-- Modelled from the spec: `osmium/osm/entity_bits.hpp` is not among the
sources; the spec describes only "a requested-entity-type filter".
Embedded as a bitmask. -/
abbrev osm_entity_bits := Nat

/-- The state of an `osmium::io::detail::Parser` (input_format.hpp,
lines 60-145) together with the channels it references: the input chunk
queue, the output batch-future queue, the header promise, the entity
filter, and the two progress flags set up by the constructor. -/
structure Parser where
  m_input_queue : List String
  m_output_queue : List BufferFuture
  m_header_promise : Option (Except Err Header)
  m_read_types : osm_entity_bits
  m_header_is_done : Bool
  m_input_queue_done : Bool
deriving Repr

/-- `Parser::drain_queue` (lines 77-82) on the embedded queue contents:
pop and discard until an empty string is popped; returns the remaining
queue contents, or `none` when the loop would block forever because no
sentinel ever arrives. -/
def drain_queue : List String → Option (List String)
  | [] => none
  | s :: rest => if s = "" then some rest else drain_queue rest

/-- `Parser::send_exception` (lines 84-88): push a future onto the output
queue and resolve it with the exception. -/
def Parser.send_exception (p : Parser) (exception : Err) : Parser :=
  { p with m_output_queue := p.m_output_queue ++ [Except.error exception] }

/-- `Parser::send_to_output_queue` (lines 95-99): push a future onto the
output queue and resolve it with the buffer. -/
def Parser.send_to_output_queue (p : Parser) (buffer : Buffer) : Parser :=
  { p with m_output_queue := p.m_output_queue ++ [Except.ok buffer] }

/-- Outcome of the virtual `run()`: either a normal return or a thrown
exception, each together with the parser state it left behind. -/
inductive RunResult where
  | ok (p : Parser) : RunResult
  | thrown (e : Err) (p : Parser) : RunResult
deriving Repr

/-- The state a `run()` outcome left behind, whichever way it ended. -/
def RunResult.state : RunResult → Parser
  | RunResult.ok p => p
  | RunResult.thrown _ p => p

/-- A format-specific `run()` implementation: a function from the parser
state at entry to its outcome. -/
abbrev RunFn := Parser → RunResult

/-- `Parser::operator()` (lines 125-143), the guarded entry point:
run `run()`; on a thrown exception resolve the header promise with it if
`m_header_is_done` was not yet set, and push one failing future; in every
case push the end-of-file marker (a default-constructed buffer); finally,
if `m_input_queue_done` is not set, drain the input queue.  `none` means
the call blocks forever inside `drain_queue`. -/
def Parser.call (run : RunFn) (p : Parser) : Option Parser :=
  let p1 : Parser :=
    match run p with
    | RunResult.ok p' => p'
    | RunResult.thrown e p' =>
      let p'' : Parser :=
        if p'.m_header_is_done then p'
        else { p' with
                 m_header_is_done := true
                 m_header_promise := some (Except.error e) }
      p''.send_exception e
  let p2 := p1.send_to_output_queue Buffer.invalid
  if p2.m_input_queue_done then
    some p2
  else
    match drain_queue p2.m_input_queue with
    | some rest => some { p2 with m_input_queue := rest }
    | none => none

/-- Modelled from the spec: `osmium/io/file_format.hpp` is not among the
sources.  The spec describes FormatId as "an enumerated tag identifying a
file's encoding"; the constructors are the formats the library names. -/
inductive file_format where
  | unknown : file_format
  | xml : file_format
  | pbf : file_format
  | opl : file_format
  | json : file_format
  | o5m : file_format
  | debug : file_format
deriving Repr, DecidableEq

/-- Modelled from the spec: the "human-readable format name" used in the
UnsupportedFormat diagnostic (`as_string` lives in the missing
file_format.hpp). -/
def as_string : file_format → String
  | file_format.unknown => "unknown"
  | file_format.xml => "XML"
  | file_format.pbf => "PBF"
  | file_format.opl => "OPL"
  | file_format.json => "JSON"
  | file_format.o5m => "O5M"
  | file_format.debug => "DEBUG"

/-- Modelled from the spec: `osmium/io/file.hpp` is not among the
sources; the spec describes a file descriptor "carrying a declared
FormatId and filename". -/
structure File where
  m_filename : String
  m_format : file_format
deriving Repr, DecidableEq

/-- `File::filename()`. -/
def File.filename (f : File) : String :=
  f.m_filename

/-- `File::format()`. -/
def File.format (f : File) : file_format :=
  f.m_format

/-- `ParserFactory::create_parser_type`: the factory function stored in
the registry.  In the embedding a constructed parser is its `run()`
behaviour; the queue and promise handles the C++ factory receives are
part of the `Parser` state that behaviour acts on, so the factory maps
the entity filter to a `RunFn`. -/
abbrev create_parser_type := osm_entity_bits → RunFn

/-- `osmium::io::detail::ParserFactory` (lines 154-204): the registry
mapping each file format to its parser factory.  The `std::map` is
embedded as an association list keyed by `file_format`. -/
structure ParserFactory where
  m_callbacks : List (file_format × create_parser_type)

/-- `ParserFactory::register_parser` (lines 184-189): `std::map::insert`
does nothing and reports failure when the key is present; otherwise the
mapping is added and the call reports success. -/
def ParserFactory.registerParser (fac : ParserFactory) (format : file_format)
    (create_function : create_parser_type) : Bool × ParserFactory :=
  match fac.m_callbacks.lookup format with
  | some _ => (false, fac)
  | none =>
    (true, { fac with m_callbacks := fac.m_callbacks ++ [(format, create_function)] })

/-- `ParserFactory::get_creator_function` (lines 191-202): look up the
file's declared format; on a miss, fail with the diagnostic naming the
file and the format. -/
def ParserFactory.get_creator_function (fac : ParserFactory) (file : File) :
    Except Err create_parser_type :=
  match fac.m_callbacks.lookup file.format with
  | some fn => Except.ok fn
  | none =>
    Except.error
      ("Can not open file \x27" ++ file.filename ++ "\x27 with type \x27" ++
       as_string file.format ++
       "\x27. No support for reading this format in this program.")

/-- Coherence between the parser's flag and the promise it guards:
`m_header_is_done` is set exactly when the promise has been resolved.
Every format implementation sets the flag when (and only when) it
resolves the promise, and the constructor establishes it. -/
def headerInv (p : Parser) : Prop :=
  p.m_header_promise.isSome = p.m_header_is_done

/-- A sample factory: its parsers return from `run()` without doing
anything. -/
def exFactory1 : create_parser_type :=
  fun _ => fun p => RunResult.ok p

/-- A second, different sample factory: its parsers throw at once. -/
def exFactory2 : create_parser_type :=
  fun _ => fun p => RunResult.thrown "nope" p

/-- A sample initial parser state: two chunks pending (one datum, then
the sentinel), nothing emitted, header unresolved. -/
def exParser : Parser :=
  { m_input_queue := ["a", ""]
    m_output_queue := []
    m_header_promise := none
    m_read_types := 0
    m_header_is_done := false
    m_input_queue_done := false }

/-- A sample `run()` that throws immediately, leaving the state as it
found it. -/
def exRunThrow : RunFn :=
  fun p => RunResult.thrown "boom" p

/-- A sample `run()` that consumes all input (marking the queue done),
emits one batch, resolves the header, and returns normally. -/
def exRunOk : RunFn :=
  fun p =>
    RunResult.ok
      { p with
          m_input_queue := []
          m_input_queue_done := true
          m_output_queue := p.m_output_queue ++ [Except.ok (Buffer.valid ["rec1"] 4)]
          m_header_promise := some (Except.ok {})
          m_header_is_done := true }

/-- A sample `run()` that succeeds without resolving the header and
without consuming the sentinel. -/
def exRunOkSilent : RunFn :=
  fun p => RunResult.ok p

/-- A sample `run()` that emits one batch and then throws: the state for
the fail-after-K-batches scenario. -/
def exRunEmitThenThrow : RunFn :=
  fun p =>
    RunResult.thrown "bad data"
      { p with m_output_queue := p.m_output_queue ++ [Except.ok (Buffer.valid ["rec1"] 4)] }

/-- The state `exRunEmitThenThrow` leaves behind when started from
`exParser`. -/
def exEmitThrowMid : Parser :=
  { exParser with m_output_queue := [Except.ok (Buffer.valid ["rec1"] 4)] }

/-- The state `Parser.call exRunThrow exParser` computes to. -/
def exThrowFinal : Parser :=
  { m_input_queue := []
    m_output_queue := [Except.error "boom", Except.ok Buffer.invalid]
    m_header_promise := some (Except.error "boom")
    m_read_types := 0
    m_header_is_done := true
    m_input_queue_done := false }

/-- The state `Parser.call exRunOk exParser` computes to. -/
def exOkFinal : Parser :=
  { m_input_queue := []
    m_output_queue := [Except.ok (Buffer.valid ["rec1"] 4), Except.ok Buffer.invalid]
    m_header_promise := some (Except.ok {})
    m_read_types := 0
    m_header_is_done := true
    m_input_queue_done := true }

/-- The state `Parser.call exRunOkSilent exParser` computes to. -/
def exOkSilentFinal : Parser :=
  { m_input_queue := []
    m_output_queue := [Except.ok Buffer.invalid]
    m_header_promise := none
    m_read_types := 0
    m_header_is_done := false
    m_input_queue_done := false }

/-- The state `Parser.call exRunEmitThenThrow exParser` computes to. -/
def exEmitThrowFinal : Parser :=
  { m_input_queue := []
    m_output_queue := [Except.ok (Buffer.valid ["rec1"] 4), Except.error "bad data",
                       Except.ok Buffer.invalid]
    m_header_promise := some (Except.error "bad data")
    m_read_types := 0
    m_header_is_done := true
    m_input_queue_done := false }

/-- A registry with nothing registered yet. -/
def exEmptyFactory : ParserFactory :=
  { m_callbacks := [] }

/-- A sample file descriptor. -/
def exFile : File :=
  { m_filename := "input.osm", m_format := file_format.o5m }

/- ---------------------------------------------------------------- -/
/- Helper lemmas                                                    -/
/- ---------------------------------------------------------------- -/

theorem string_append_assoc (a b c : String) : a ++ b ++ c = a ++ (b ++ c) := by
  apply String.ext
  simp [String.data_append, List.append_assoc]

theorem drain_queue_append_sentinel (l : List String) (h : "" ∉ l) :
    drain_queue (l ++ [""]) = some [] := by
  induction l with
  | nil => simp [drain_queue]
  | cons s tl ih =>
    have hs : ¬ s = "" := fun hs => h (by simp [hs])
    have htl : "" ∉ tl := fun hm => h (List.mem_cons_of_mem _ hm)
    simpa [drain_queue, hs] using ih htl

theorem drain_queue_isSome_of_mem (l : List String) (h : "" ∈ l) :
    (drain_queue l).isSome = true := by
  induction l with
  | nil => cases h
  | cons s tl ih =>
    by_cases hs : s = ""
    · simp [drain_queue, hs]
    · have htl : "" ∈ tl := by
        rcases List.mem_cons.mp h with h1 | h2
        · exact absurd h1.symm hs
        · exact h2
      simpa [drain_queue, hs] using ih htl

theorem lookup_append_of_none {α β : Type} [BEq α] (l l2 : List (α × β)) (k : α)
    (h : l.lookup k = none) : (l ++ l2).lookup k = l2.lookup k := by
  induction l with
  | nil => rfl
  | cons kv tl ih =>
    obtain ⟨k1, v1⟩ := kv
    simp only [List.lookup, List.cons_append] at h ⊢
    cases hb : (k == k1)
    · rw [hb] at h
      exact ih h
    · rw [hb] at h
      cases h

theorem lookup_singleton_self {α β : Type} [DecidableEq α] (k : α) (v : β) :
    ([(k, v)] : List (α × β)).lookup k = some v := by
  simp [List.lookup]

theorem call_thrown_fields (run : RunFn) (p q qf : Parser) (e : Err)
    (hrun : run p = RunResult.thrown e q)
    (hcall : Parser.call run p = some qf) :
    qf.m_output_queue = q.m_output_queue ++ [Except.error e, Except.ok Buffer.invalid] ∧
    qf.m_header_is_done = true ∧
    qf.m_header_promise =
      (if q.m_header_is_done then q.m_header_promise else some (Except.error e)) ∧
    qf.m_read_types = q.m_read_types ∧
    qf.m_input_queue_done = q.m_input_queue_done ∧
    (if q.m_input_queue_done then qf.m_input_queue = q.m_input_queue
     else drain_queue q.m_input_queue = some qf.m_input_queue) := by
  unfold Parser.call at hcall
  rw [hrun] at hcall
  simp only [Parser.send_exception, Parser.send_to_output_queue] at hcall
  by_cases hd : q.m_header_is_done <;>
    by_cases hq : q.m_input_queue_done <;>
      simp only [hd, hq, if_true, if_false, Bool.false_eq_true, ite_true, ite_false,
        List.append_assoc, List.cons_append, List.nil_append] at hcall ⊢
  · cases hcall
    simp
  · rcases hdr : drain_queue q.m_input_queue with _ | rest <;> rw [hdr] at hcall
    · cases hcall
    · cases hcall
      simp [hdr]
  · cases hcall
    simp
  · rcases hdr : drain_queue q.m_input_queue with _ | rest <;> rw [hdr] at hcall
    · cases hcall
    · cases hcall
      simp [hdr]

theorem call_ok_fields (run : RunFn) (p q qf : Parser)
    (hrun : run p = RunResult.ok q)
    (hcall : Parser.call run p = some qf) :
    qf.m_output_queue = q.m_output_queue ++ [Except.ok Buffer.invalid] ∧
    qf.m_header_is_done = q.m_header_is_done ∧
    qf.m_header_promise = q.m_header_promise ∧
    qf.m_read_types = q.m_read_types ∧
    qf.m_input_queue_done = q.m_input_queue_done ∧
    (if q.m_input_queue_done then qf.m_input_queue = q.m_input_queue
     else drain_queue q.m_input_queue = some qf.m_input_queue) := by
  unfold Parser.call at hcall
  rw [hrun] at hcall
  simp only [Parser.send_to_output_queue] at hcall
  by_cases hq : q.m_input_queue_done <;>
    simp only [hq, if_true, if_false, Bool.false_eq_true, ite_true, ite_false] at hcall ⊢
  · cases hcall
    simp
  · rcases hdr : drain_queue q.m_input_queue with _ | rest <;> rw [hdr] at hcall
    · cases hcall
    · cases hcall
      simp [hdr]

theorem call_isSome_of_drain (run : RunFn) (p : Parser)
    (h : (drain_queue (RunResult.state (run p)).m_input_queue).isSome = true) :
    (Parser.call run p).isSome = true := by
  rcases hdr : drain_queue (RunResult.state (run p)).m_input_queue with _ | rest
  · rw [hdr] at h
    cases h
  · unfold Parser.call
    rcases hr : run p with q | ⟨e, q⟩ <;> rw [hr] at hdr <;>
      simp only [RunResult.state] at hdr
    · by_cases hq : q.m_input_queue_done <;>
        simp [Parser.send_to_output_queue, hq, hdr]
    · by_cases hd : q.m_header_is_done <;>
        by_cases hq : q.m_input_queue_done <;>
          simp [Parser.send_exception, Parser.send_to_output_queue, hd, hq, hdr]

/- ---------------------------------------------------------------- -/
/- Claims                                                           -/
/- ---------------------------------------------------------------- -/

/-- C1: for every run in which `run()` throws, the guarded entry point
`Parser::operator()` converts the failure into, in order: (a) resolving
the header one-shot with that same failure if and only if the header was
not yet resolved, (b) appending exactly one failing result to the output
queue, (c) appending the terminal empty batch, and (d) draining the
input queue if and only if its sentinel had not yet been consumed. -/
theorem guarded_entry_converts_failure (run : RunFn) (p q qf : Parser) (e : Err)
    (hrun : run p = RunResult.thrown e q)
    (hcall : Parser.call run p = some qf) :
    qf.m_header_promise =
      (if q.m_header_is_done then q.m_header_promise else some (Except.error e)) ∧
    qf.m_header_is_done = true ∧
    qf.m_output_queue =
      q.m_output_queue ++ [Except.error e, Except.ok Buffer.invalid] ∧
    (if q.m_input_queue_done then qf.m_input_queue = q.m_input_queue
     else drain_queue q.m_input_queue = some qf.m_input_queue) := by
  obtain ⟨hout, hdone, hprom, _, _, hin⟩ := call_thrown_fields run p q qf e hrun hcall
  exact ⟨hprom, hdone, hout, hin⟩

/-- Witness for `guarded_entry_converts_failure`: a `run()` that throws
"boom" immediately from the sample initial state. -/
theorem guarded_entry_converts_failure_witness :
    exRunThrow exParser = RunResult.thrown "boom" exParser ∧
    Parser.call exRunThrow exParser = some exThrowFinal ∧
    (exThrowFinal.m_header_promise =
      (if exParser.m_header_is_done then exParser.m_header_promise
       else some (Except.error "boom")) ∧
     exThrowFinal.m_header_is_done = true ∧
     exThrowFinal.m_output_queue =
       exParser.m_output_queue ++ [Except.error "boom", Except.ok Buffer.invalid] ∧
     (if exParser.m_input_queue_done then exThrowFinal.m_input_queue = exParser.m_input_queue
      else drain_queue exParser.m_input_queue = some exThrowFinal.m_input_queue)) :=
  ⟨rfl, rfl,
    guarded_entry_converts_failure exRunThrow exParser exParser exThrowFinal "boom" rfl rfl⟩

/-- C4: if the decoder emits K successful batches and then `run()`
throws, the complete output stream is exactly the K batches in emission
order, then one failing result, then one terminal empty batch, with
nothing after. -/
theorem failure_after_k_batches_output (run : RunFn) (p q qf : Parser) (e : Err)
    (batches : List Buffer)
    (hrun : run p = RunResult.thrown e q)
    (hout : q.m_output_queue = batches.map Except.ok)
    (hcall : Parser.call run p = some qf) :
    qf.m_output_queue =
      batches.map Except.ok ++ [Except.error e, Except.ok Buffer.invalid] := by
  obtain ⟨h1, _⟩ := call_thrown_fields run p q qf e hrun hcall
  rw [h1, hout]

/-- Witness for `failure_after_k_batches_output`: one successful batch
(K = 1) followed by a thrown "bad data". -/
theorem failure_after_k_batches_output_witness :
    exRunEmitThenThrow exParser = RunResult.thrown "bad data" exEmitThrowMid ∧
    exEmitThrowMid.m_output_queue = [Buffer.valid ["rec1"] 4].map Except.ok ∧
    Parser.call exRunEmitThenThrow exParser = some exEmitThrowFinal ∧
    exEmitThrowFinal.m_output_queue =
      [Buffer.valid ["rec1"] 4].map Except.ok ++
        [Except.error "bad data", Except.ok Buffer.invalid] :=
  ⟨rfl, rfl, rfl,
    failure_after_k_batches_output exRunEmitThenThrow exParser exEmitThrowMid
      exEmitThrowFinal "bad data" [Buffer.valid ["rec1"] 4] rfl rfl rfl⟩

/-- C10: if `run()` returns normally, the guarded entry point never
touches the header one-shot: promise and flag are exactly what `run()`
left, and a `run()` that succeeds without resolving the header leaves it
unresolved. -/
theorem success_path_never_touches_header (run : RunFn) (p q qf : Parser)
    (hrun : run p = RunResult.ok q)
    (hcall : Parser.call run p = some qf) :
    qf.m_header_promise = q.m_header_promise ∧
    qf.m_header_is_done = q.m_header_is_done ∧
    (q.m_header_promise = none → qf.m_header_promise = none) := by
  obtain ⟨_, h2, h3, _, _, _⟩ := call_ok_fields run p q qf hrun hcall
  exact ⟨h3, h2, fun hn => by rw [h3, hn]⟩

/-- Witness for `success_path_never_touches_header`: a `run()` that
returns normally without resolving the header. -/
theorem success_path_never_touches_header_witness :
    exRunOkSilent exParser = RunResult.ok exParser ∧
    Parser.call exRunOkSilent exParser = some exOkSilentFinal ∧
    (exOkSilentFinal.m_header_promise = exParser.m_header_promise ∧
     exOkSilentFinal.m_header_is_done = exParser.m_header_is_done ∧
     (exParser.m_header_promise = none → exOkSilentFinal.m_header_promise = none)) :=
  ⟨rfl, rfl,
    success_path_never_touches_header exRunOkSilent exParser exParser exOkSilentFinal rfl rfl⟩

/-- C2: whether `run()` returns normally or throws, exactly one terminal
empty batch is pushed onto the output queue, and it is the last item
ever pushed for that run (given that the format-specific `run()` itself
never pushes a terminal batch). -/
theorem terminal_batch_exactly_once_and_last (run : RunFn) (p qf : Parser)
    (hrunout : ∀ x ∈ (RunResult.state (run p)).m_output_queue,
       BufferFuture.is_terminal x = false)
    (hcall : Parser.call run p = some qf) :
    qf.m_output_queue.countP BufferFuture.is_terminal = 1 ∧
    qf.m_output_queue.getLast? = some (Except.ok Buffer.invalid) := by
  rcases hr : run p with q | ⟨e, q⟩ <;> rw [hr] at hrunout <;>
    simp only [RunResult.state] at hrunout
  · obtain ⟨hout, _⟩ := call_ok_fields run p q qf hr hcall
    have hz : q.m_output_queue.countP BufferFuture.is_terminal = 0 :=
      List.countP_eq_zero.mpr (fun x hx => by simp [hrunout x hx])
    constructor
    · rw [hout, List.countP_append, hz]
      rfl
    · rw [hout]
      simp
  · obtain ⟨hout, _⟩ := call_thrown_fields run p q qf e hr hcall
    have hz : q.m_output_queue.countP BufferFuture.is_terminal = 0 :=
      List.countP_eq_zero.mpr (fun x hx => by simp [hrunout x hx])
    constructor
    · rw [hout, List.countP_append, hz]
      rfl
    · rw [hout]
      simp

/-- Witness for `terminal_batch_exactly_once_and_last`: a successful run
that emitted one (non-terminal) batch. -/
theorem terminal_batch_exactly_once_and_last_witness :
    (∀ x ∈ (RunResult.state (exRunOk exParser)).m_output_queue,
       BufferFuture.is_terminal x = false) ∧
    Parser.call exRunOk exParser = some exOkFinal ∧
    (exOkFinal.m_output_queue.countP BufferFuture.is_terminal = 1 ∧
     exOkFinal.m_output_queue.getLast? = some (Except.ok Buffer.invalid)) :=
  ⟨by decide, rfl,
    terminal_batch_exactly_once_and_last exRunOk exParser exOkFinal (by decide) rfl⟩

/-- C3: the input queue is left empty when the guarded entry point
completes: when the sentinel was not yet consumed by `run()` and the
queue holds it as its last element, the call completes with an empty
input queue; and the drain loop terminates for every queue containing
the sentinel. -/
theorem input_queue_drained_on_completion (run : RunFn) (p : Parser) (l : List String)
    (hin : (RunResult.state (run p)).m_input_queue = l ++ [""])
    (hno : "" ∉ l)
    (hnd : (RunResult.state (run p)).m_input_queue_done = false) :
    (∃ qf, Parser.call run p = some qf ∧ qf.m_input_queue = []) ∧
    (∀ inp : List String, "" ∈ inp → (drain_queue inp).isSome = true) := by
  refine ⟨?_, fun inp hm => drain_queue_isSome_of_mem inp hm⟩
  have hdr : drain_queue (RunResult.state (run p)).m_input_queue = some [] := by
    rw [hin]
    exact drain_queue_append_sentinel l hno
  have hsome : (Parser.call run p).isSome = true :=
    call_isSome_of_drain run p (by rw [hdr]; rfl)
  obtain ⟨qf, hqf⟩ := Option.isSome_iff_exists.mp hsome
  refine ⟨qf, hqf, ?_⟩
  rcases hr : run p with q | ⟨e, q⟩ <;> rw [hr] at hnd hdr <;>
    simp only [RunResult.state] at hnd hdr
  · obtain ⟨_, _, _, _, _, h6⟩ := call_ok_fields run p q qf hr hqf
    rw [hnd] at h6
    simp only [Bool.false_eq_true, if_false] at h6
    rw [hdr] at h6
    exact (Option.some.injEq _ _).mp h6.symm
  · obtain ⟨_, _, _, _, _, h6⟩ := call_thrown_fields run p q qf e hr hqf
    rw [hnd] at h6
    simp only [Bool.false_eq_true, if_false] at h6
    rw [hdr] at h6
    exact (Option.some.injEq _ _).mp h6.symm

/-- Witness for `input_queue_drained_on_completion`: the failing run left
`["a", ""]` in the input queue; the wrapper drains it to empty. -/
theorem input_queue_drained_on_completion_witness :
    (RunResult.state (exRunThrow exParser)).m_input_queue = ["a"] ++ [""] ∧
    "" ∉ (["a"] : List String) ∧
    (RunResult.state (exRunThrow exParser)).m_input_queue_done = false ∧
    ((∃ qf, Parser.call exRunThrow exParser = some qf ∧ qf.m_input_queue = []) ∧
     (∀ inp : List String, "" ∈ inp → (drain_queue inp).isSome = true)) :=
  ⟨rfl, by decide, rfl,
    input_queue_drained_on_completion exRunThrow exParser ["a"] rfl (by decide) rfl⟩

/-- C5: the header one-shot is resolved exactly once — by the time the
call completes it holds a value or an error; an existing resolution is
never overwritten (the `m_header_is_done` guard makes a second
resolution a no-op); it is resolved no later than the point the run is
known to have failed.  Hypotheses: `run()` keeps flag and promise
coherent, and on normal return has resolved the header as its contract
requires. -/
theorem header_one_shot_resolved_once (run : RunFn) (p qf : Parser)
    (hinv : headerInv (RunResult.state (run p)))
    (hok : ∀ q, run p = RunResult.ok q → q.m_header_is_done = true)
    (hcall : Parser.call run p = some qf) :
    qf.m_header_promise.isSome = true ∧
    headerInv qf ∧
    (∀ r, (RunResult.state (run p)).m_header_promise = some r →
       qf.m_header_promise = some r) := by
  rcases hr : run p with q | ⟨e, q⟩ <;> rw [hr] at hinv <;>
    simp only [RunResult.state] at hinv ⊢
  · obtain ⟨_, h2, h3, _, _, _⟩ := call_ok_fields run p q qf hr hcall
    have hq := hok q hr
    unfold headerInv at hinv ⊢
    refine ⟨?_, ?_, ?_⟩
    · rw [h3, hinv, hq]
    · rw [h3, h2, hinv]
    · intro r hrr
      rw [h3, hrr]
  · obtain ⟨_, h2, h3, _, _, _⟩ := call_thrown_fields run p q qf e hr hcall
    unfold headerInv at hinv ⊢
    by_cases hd : q.m_header_is_done
    · rw [hd] at hinv
      simp only [hd, if_true] at h3
      refine ⟨?_, ?_, ?_⟩
      · rw [h3, hinv]
      · rw [h3, h2, hinv]
      · intro r hrr
        rw [h3, hrr]
    · have hd' : q.m_header_is_done = false := by
        cases hq : q.m_header_is_done
        · rfl
        · exact absurd hq hd
      rw [hd'] at hinv
      simp only [hd', Bool.false_eq_true, if_false] at h3
      refine ⟨?_, ?_, ?_⟩
      · rw [h3]
        rfl
      · rw [h3, h2]
        rfl
      · intro r hrr
        rw [hrr] at hinv
        cases hinv

/-- Witness for `header_one_shot_resolved_once`: a coherent state whose
`run()` throws before resolving the header; the wrapper resolves it with
the failure. -/
theorem header_one_shot_resolved_once_witness :
    headerInv (RunResult.state (exRunThrow exParser)) ∧
    (∀ q, exRunThrow exParser = RunResult.ok q → q.m_header_is_done = true) ∧
    Parser.call exRunThrow exParser = some exThrowFinal ∧
    (exThrowFinal.m_header_promise.isSome = true ∧
     headerInv exThrowFinal ∧
     (∀ r, (RunResult.state (exRunThrow exParser)).m_header_promise = some r →
        exThrowFinal.m_header_promise = some r)) :=
  ⟨rfl, fun _ h => RunResult.noConfusion h, rfl,
    header_one_shot_resolved_once exRunThrow exParser exThrowFinal rfl
      (fun _ h => RunResult.noConfusion h) rfl⟩

/-- C6: registering a factory for an absent FormatId succeeds and
inserts the mapping; a second registration for the same FormatId fails
and leaves the registry unchanged, so lookup still yields the first
factory (no overwrite semantics). -/
theorem register_no_overwrite (fac : ParserFactory) (F : file_format)
    (f1 f2 : create_parser_type)
    (habs : fac.m_callbacks.lookup F = none) :
    (fac.registerParser F f1).1 = true ∧
    (fac.registerParser F f1).2.m_callbacks.lookup F = some f1 ∧
    ((fac.registerParser F f1).2.registerParser F f2).1 = false ∧
    ((fac.registerParser F f1).2.registerParser F f2).2.m_callbacks =
      (fac.registerParser F f1).2.m_callbacks ∧
    ((fac.registerParser F f1).2.registerParser F f2).2.m_callbacks.lookup F =
      some f1 := by
  have hl1 : (fac.m_callbacks ++ [(F, f1)]).lookup F = some f1 := by
    rw [lookup_append_of_none _ _ _ habs, lookup_singleton_self]
  refine ⟨?_, ?_, ?_, ?_, ?_⟩ <;>
    simp [ParserFactory.registerParser, habs, hl1]

/-- Witness for `register_no_overwrite`: registering PBF twice on an
empty registry. -/
theorem register_no_overwrite_witness :
    exEmptyFactory.m_callbacks.lookup file_format.pbf = none ∧
    ((exEmptyFactory.registerParser file_format.pbf exFactory1).1 = true ∧
     (exEmptyFactory.registerParser file_format.pbf exFactory1).2.m_callbacks.lookup
        file_format.pbf = some exFactory1 ∧
     ((exEmptyFactory.registerParser file_format.pbf exFactory1).2.registerParser
        file_format.pbf exFactory2).1 = false ∧
     ((exEmptyFactory.registerParser file_format.pbf exFactory1).2.registerParser
        file_format.pbf exFactory2).2.m_callbacks =
       (exEmptyFactory.registerParser file_format.pbf exFactory1).2.m_callbacks ∧
     ((exEmptyFactory.registerParser file_format.pbf exFactory1).2.registerParser
        file_format.pbf exFactory2).2.m_callbacks.lookup file_format.pbf =
       some exFactory1) :=
  ⟨rfl, register_no_overwrite exEmptyFactory file_format.pbf exFactory1 exFactory2 rfl⟩

/-- C7: resolving a factory for an unregistered format fails with a
message containing the filename and the format display name verbatim;
for a registered format it returns the stored factory. -/
theorem get_creator_function_spec (fac : ParserFactory) (file : File) :
    (fac.m_callbacks.lookup file.format = none →
      ∃ msg, fac.get_creator_function file = Except.error msg ∧
        (∃ pre post, msg = pre ++ file.filename ++ post) ∧
        (∃ pre post, msg = pre ++ as_string file.format ++ post)) ∧
    (∀ fn, fac.m_callbacks.lookup file.format = some fn →
      fac.get_creator_function file = Except.ok fn) := by
  constructor
  · intro h
    refine ⟨"Can not open file \x27" ++ file.filename ++ "\x27 with type \x27" ++
        as_string file.format ++
        "\x27. No support for reading this format in this program.", ?_, ?_, ?_⟩
    · unfold ParserFactory.get_creator_function
      rw [h]
    · exact ⟨"Can not open file \x27",
        "\x27 with type \x27" ++ (as_string file.format ++
          "\x27. No support for reading this format in this program."),
        by simp [string_append_assoc]⟩
    · exact ⟨"Can not open file \x27" ++ file.filename ++ "\x27 with type \x27",
        "\x27. No support for reading this format in this program.", rfl⟩
  · intro fn h
    unfold ParserFactory.get_creator_function
    rw [h]

/-- Witness for `get_creator_function_spec`: resolving an O5M file on an
empty registry fails with the diagnostic. -/
theorem get_creator_function_spec_witness :
    exEmptyFactory.m_callbacks.lookup exFile.format = none ∧
    (∃ msg, exEmptyFactory.get_creator_function exFile = Except.error msg ∧
       (∃ pre post, msg = pre ++ exFile.filename ++ post) ∧
       (∃ pre post, msg = pre ++ as_string exFile.format ++ post)) :=
  ⟨rfl, (get_creator_function_spec exEmptyFactory exFile).1 rfl⟩

/-- C8: a default-constructed Header has `has_multiple_object_versions`
false, `pbf_has_dense_nodes` false, an empty `generator` string, and
default-constructed bounds. -/
theorem default_header_fields :
    ({} : Header).has_multiple_object_versions = false ∧
    ({} : Header).pbf_has_dense_nodes = false ∧
    ({} : Header).generator = "" ∧
    ({} : Header).bounds = ({} : Bounds) :=
  ⟨rfl, rfl, rfl, rfl⟩

/-- C9: every Header setter modifies only its own field, leaves the
other three unchanged, and yields the updated header usable for fluent
chaining. -/
theorem header_setters_frame (h : Header) (b : Bounds) (v : Bool) (g : String)
    (d : Bool) :
    ((h.set_bounds b).bounds = b ∧
     (h.set_bounds b).has_multiple_object_versions = h.has_multiple_object_versions ∧
     (h.set_bounds b).generator = h.generator ∧
     (h.set_bounds b).pbf_has_dense_nodes = h.pbf_has_dense_nodes) ∧
    ((h.set_has_multiple_object_versions v).has_multiple_object_versions = v ∧
     (h.set_has_multiple_object_versions v).bounds = h.bounds ∧
     (h.set_has_multiple_object_versions v).generator = h.generator ∧
     (h.set_has_multiple_object_versions v).pbf_has_dense_nodes =
       h.pbf_has_dense_nodes) ∧
    ((h.set_generator g).generator = g ∧
     (h.set_generator g).bounds = h.bounds ∧
     (h.set_generator g).has_multiple_object_versions =
       h.has_multiple_object_versions ∧
     (h.set_generator g).pbf_has_dense_nodes = h.pbf_has_dense_nodes) ∧
    ((h.set_pbf_has_dense_nodes d).pbf_has_dense_nodes = d ∧
     (h.set_pbf_has_dense_nodes d).bounds = h.bounds ∧
     (h.set_pbf_has_dense_nodes d).has_multiple_object_versions =
       h.has_multiple_object_versions ∧
     (h.set_pbf_has_dense_nodes d).generator = h.generator) :=
  ⟨⟨rfl, rfl, rfl, rfl⟩, ⟨rfl, rfl, rfl, rfl⟩, ⟨rfl, rfl, rfl, rfl⟩,
   ⟨rfl, rfl, rfl, rfl⟩⟩
